import Mathlib

/-!
Verification of the detection-and-classification engine of the website
diagnosis tool (`diagnose_website.py`).

The development shallowly embeds the pure core of the program:

* a backtracking regular-expression engine with Python `re` semantics
  (leftmost match, left-biased alternation, greedy/lazy quantifiers,
  character classes, `^`, `\b`, `.` not matching newline), used to run the
  two pattern catalogs;
* the two catalogs `VULNERABLE_PATTERNS` and `TECH_DETECTION_PATTERNS`,
  transcribed pattern by pattern (the original pattern string is quoted in
  a comment above each transcription);
* the Static Matcher `detect_technologies_static`, the fusion rule
  `merge_detected_techs`, the Vulnerability Scanner loop of
  `diagnose_site`, the Classifier, `format_load_time`, and the final
  report-assembly block of `diagnose_site`.

Browser interaction (navigation, console capture, FCP sampling) is
abstracted as an input record `BrowserRun` plus a `NavOutcome` describing
which exit path the run took; everything downstream of those inputs is
embedded faithfully.
-/

namespace OldTech

/-! ### Python-style string primitives

The source manipulates `str` values by slicing and the `in` operator;
these helpers mirror those operations on `List Char` / `String`.
All matching in the source happens on `html.lower()`; Python's
`str.lower()` on the ASCII inputs considered here is `Char.toLower`
applied pointwise. -/

/-- Python slice `l[a:b]` for natural bounds (`a ≤ b` in all uses here;
out-of-range bounds clamp, as in Python). -/
def pySlice (l : List Char) (a b : Nat) : List Char :=
  (l.take b).drop a

/-- Test that `needle` occurs as a contiguous run inside `hay`. -/
def seqIn (needle : List Char) : List Char → Bool
  | [] => needle.isEmpty
  | c :: rest => needle.isPrefixOf (c :: rest) || seqIn needle rest

/-- Python's substring test `needle in hay`. -/
def pyIn (needle hay : String) : Bool :=
  seqIn needle.data hay.data

/-- Code-point lexicographic comparison of character lists; this is
Python's `<` on strings (used by `sorted`). -/
def charsLt : List Char → List Char → Bool
  | [], [] => false
  | [], _ :: _ => true
  | _ :: _, [] => false
  | a :: as, b :: bs => if a < b then true else if b < a then false else charsLt as bs

/-- Python `s1 < s2` on strings. -/
def strLt (a b : String) : Bool := charsLt a.data b.data

/-! ### Regular-expression engine (Python `re` semantics)

A small AST covering exactly the constructs used by the program's
patterns, and a continuation-passing backtracking matcher whose
disambiguation order coincides with CPython's `re` module: alternation
prefers the left branch, `?`/`*` greedy variants try the body first,
lazy (`??`/`*?`) variants try the empty continuation first, and the
overall search is leftmost.  Groups do not need to be tracked: the two
regexes whose group 1 is read by the program — `(\d+\.\d+(?:\.\d+)?)` and
the same preceded by the one-character class `[v \t\n\r\f\v slash hyphen]`
— have group 1 equal to the whole match,
resp. the whole match minus its first character, and are handled at the
call sites. -/

/-- Regex AST: `cls neg ranges` is a character class (`neg` for `[^…]`),
`dot` is `.` (anything but newline), `bol` is `^`, `wb` is `\b`. -/
inductive Re where
  | eps
  | lit (c : Char)
  | cls (neg : Bool) (ranges : List (Char × Char))
  | dot
  | cat (a b : Re)
  | alt (a b : Re)
  | star (greedy : Bool) (r : Re)
  | opt (greedy : Bool) (r : Re)
  | bol
  | wb
deriving Repr, DecidableEq

/-- Sequence a list of sub-regexes. -/
def RSeq (l : List Re) : Re := l.foldr .cat .eps

/-- Literal string regex. -/
def RStr (s : String) : Re := RSeq (s.data.map .lit)

/-- Right-nested alternation `a|b|c|…` (left-biased, as in `re`). -/
def RAlt (l : List Re) : Re :=
  match l with
  | [] => .eps
  | [r] => r
  | r :: rest => .alt r (RAlt rest)

/-- Greedy `r?`. -/
def ROpt (r : Re) : Re := .opt true r

/-- Lazy `r*?`. -/
def RStarL (r : Re) : Re := .star false r

/-- Greedy `r+` ( = `r r*`). -/
def RPlus (r : Re) : Re := .cat r (.star true r)

/-- The class `[0-9]`, also `\d`. -/
def RDigit : Re := .cls false [('0', '9')]

/-- The class `[^/]`. -/
def RNoSlash : Re := .cls true [('/', '/')]

/-- Python `\w` for ASCII: letters, digits, underscore (used by `\b`). -/
def wordChar (c : Char) : Bool :=
  ('a' ≤ c && c ≤ 'z') || ('A' ≤ c && c ≤ 'Z') || ('0' ≤ c && c ≤ '9') || c = '_'

/-- Character class membership. -/
def inRanges (c : Char) : List (Char × Char) → Bool
  | [] => false
  | (a, b) :: rs => (a ≤ c && c ≤ b) || inRanges c rs

/-- Does character `c` satisfy class `cls neg rs`? -/
def clsMatch (neg : Bool) (rs : List (Char × Char)) (c : Char) : Bool :=
  if neg then !(inRanges c rs) else inRanges c rs

/-- Whether `\b` holds at position `i` of `s`: word-ness differs on the two sides. -/
def atWordBoundary (s : List Char) (i : Nat) : Bool :=
  let left := if i = 0 then false else
    match s[i - 1]? with
    | some c => wordChar c
    | none => false
  let right := match s[i]? with
    | some c => wordChar c
    | none => false
  left != right

/-- Structural size of a regex, used only to compute a sufficient fuel. -/
def Re.size : Re → Nat
  | .eps | .lit _ | .cls _ _ | .dot | .bol | .wb => 1
  | .cat a b | .alt a b => a.size + b.size + 1
  | .star _ r | .opt _ r => r.size + 1

/-- CPS backtracking matcher.  `reM fuel r s i k` tries to match `r` in
`s` starting at position `i` and passes each candidate end position to
continuation `k`, in exactly CPython's backtracking order; the first
`some` wins.  `fuel` bounds the recursion depth (each call strictly
consumes fuel); with the fuel chosen in `reMatchAt` it is never
exhausted for the patterns at hand.  The `j ≤ i` guard in `star` refuses
empty loop iterations, as `re` does. -/
def reM (s : List Char) : Nat → Re → Nat → (Nat → Option Nat) → Option Nat
  | 0, _, _, _ => none
  | fuel + 1, r, i, k =>
    match r with
    | .eps => k i
    | .lit c =>
      match s[i]? with
      | some c' => if c' = c then k (i + 1) else none
      | none => none
    | .cls neg rs =>
      match s[i]? with
      | some c' => if clsMatch neg rs c' then k (i + 1) else none
      | none => none
    | .dot =>
      match s[i]? with
      | some c' => if c' = '\n' then none else k (i + 1)
      | none => none
    | .cat a b => reM s fuel a i (fun j => reM s fuel b j k)
    | .alt a b => (reM s fuel a i k).orElse (fun _ => reM s fuel b i k)
    | .opt g r' =>
      if g then (reM s fuel r' i k).orElse (fun _ => k i)
      else (k i).orElse (fun _ => reM s fuel r' i k)
    | .star g r' =>
      if g then
        (reM s fuel r' i (fun j => if j ≤ i then none
          else reM s fuel (.star g r') j k)).orElse (fun _ => k i)
      else
        (k i).orElse (fun _ => reM s fuel r' i (fun j => if j ≤ i then none
          else reM s fuel (.star g r') j k))
    | .bol => if i = 0 then k i else none
    | .wb => if atWordBoundary s i then k i else none

/-- Try to match `r` anchored at position `i`; returns the end position
of the match `re` would report there. -/
def reMatchAt (r : Re) (s : List Char) (i : Nat) : Option Nat :=
  reM s ((r.size + 2) * (s.length + 2) + r.size + 8) r i some

/-- First match starting at a position `≥ i` (scanning at most `gas`
candidate start positions); returns `(start, end)`. -/
def reFind (r : Re) (s : List Char) : Nat → Nat → Option (Nat × Nat)
  | _, 0 => none
  | i, gas + 1 =>
    match reMatchAt r s i with
    | some e => some (i, e)
    | none => reFind r s (i + 1) gas

/-- Python `re.search`: leftmost match, as a `(start, end)` span. -/
def reSearch (r : Re) (s : List Char) : Option (Nat × Nat) :=
  reFind r s 0 (s.length + 1)

/-- One step of `re.finditer`: collect non-overlapping leftmost matches,
resuming after each match (and one past it, if it was empty). -/
def finditerAux (r : Re) (s : List Char) : Nat → Nat → List (Nat × Nat)
  | _, 0 => []
  | pos, gas + 1 =>
    match reFind r s pos (s.length + 1 - pos) with
    | some (i, e) => (i, e) :: finditerAux r s (if i < e then e else i + 1) gas
    | none => []

/-- Python `re.finditer`, as the list of `(start, end)` spans. -/
def finditer (r : Re) (s : List Char) : List (Nat × Nat) :=
  finditerAux r s 0 (s.length + 1)

/-! ### The vulnerability-signature catalog `VULNERABLE_PATTERNS`

Each definition transcribes one raw pattern string of the Python dict,
quoted in the comment above it.  All patterns are pure lowercase, and the
program matches them against `html.lower()` with `re.IGNORECASE`, so the
transcription is case-sensitive over the lowered text. -/

/-- Fragment `(?:-|\.min)?`,  shared by most signatures. -/
def RDashOrMin : Re := ROpt (.alt (.lit '-') (RStr ".min"))

-- "nextjs_old": r"(?:_next/static/|next\.js[^/]*?@?)(1\.[0-9]\.|^1[0-2]\.)"
def nextjsOldRe : Re := RSeq [
  .alt (RStr "_next/static/") (RSeq [RStr "next.js", RStarL RNoSlash, ROpt (.lit '@')]),
  .alt (RSeq [RStr "1.", RDigit, .lit '.'])
       (RSeq [.bol, .lit '1', .cls false [('0', '2')], .lit '.'])]

-- "angularjs_v1_5" … "angularjs_v1_0" and "angularjs_old" share the shape
-- r"angular(?:js)?(?:-|\.min)?\.js\?v?=1\.<last>"; `last` is the final piece.
def angularjsVerRe (last : Re) : Re := RSeq [
  RStr "angular", ROpt (RStr "js"), RDashOrMin, RStr ".js?", ROpt (.lit 'v'),
  RStr "=1.", last]

-- "angularjs_v1_5": r"angular(?:js)?(?:-|\.min)?\.js\?v?=1\.5"
def angularjsV15Re : Re := angularjsVerRe (.lit '5')
-- "angularjs_v1_4": r"angular(?:js)?(?:-|\.min)?\.js\?v?=1\.4"
def angularjsV14Re : Re := angularjsVerRe (.lit '4')
-- "angularjs_v1_3": r"angular(?:js)?(?:-|\.min)?\.js\?v?=1\.3"
def angularjsV13Re : Re := angularjsVerRe (.lit '3')
-- "angularjs_v1_2": r"angular(?:js)?(?:-|\.min)?\.js\?v?=1\.2"
def angularjsV12Re : Re := angularjsVerRe (.lit '2')
-- "angularjs_v1_1": r"angular(?:js)?(?:-|\.min)?\.js\?v?=1\.1"
def angularjsV11Re : Re := angularjsVerRe (.lit '1')
-- "angularjs_v1_0": r"angular(?:js)?(?:-|\.min)?\.js\?v?=1\.0"
def angularjsV10Re : Re := angularjsVerRe (.lit '0')
-- "angularjs_old": r"angular(?:js)?(?:-|\.min)?\.js\?v?=1\.[0-6]"
def angularjsOldRe : Re := angularjsVerRe (.cls false [('0', '6')])

-- "jquery_old": r"jquery[.-](?:1\.([0-9]|1[0-1]))(?:\.|\b)"
def jqueryOldRe : Re := RSeq [
  RStr "jquery", .cls false [('.', '.'), ('-', '-')],
  RStr "1.", .alt RDigit (RSeq [.lit '1', .cls false [('0', '1')]]),
  .alt (.lit '.') .wb]

-- "bootstrap_old": r"bootstrap(?:-|\.min)?\.(?:js|css)[^/]*?3\.[0-4]"
def bootstrapOldRe : Re := RSeq [
  RStr "bootstrap", RDashOrMin, .lit '.', .alt (RStr "js") (RStr "css"),
  RStarL RNoSlash, RStr "3.", .cls false [('0', '4')]]

-- "react_old": r"react(?:-dom)?(?:-|\.min)?\.js[^/]*?(?:0\.|1[0-5]\.|16\.[0-7]\b)"
def reactOldRe : Re := RSeq [
  RStr "react", ROpt (RStr "-dom"), RDashOrMin, RStr ".js", RStarL RNoSlash,
  RAlt [RStr "0.", RSeq [.lit '1', .cls false [('0', '5')], .lit '.'],
        RSeq [RStr "16.", .cls false [('0', '7')], .wb]]]

-- "vue_old": r"vue(?:-|\.min)?\.js[^/]*?(?:0\.|1\.|2\.[0-5])"
def vueOldRe : Re := RSeq [
  RStr "vue", RDashOrMin, RStr ".js", RStarL RNoSlash,
  RAlt [RStr "0.", RStr "1.", RSeq [RStr "2.", .cls false [('0', '5')]]]]

-- "backbone_old": r"backbone(?:-|\.min)?\.js[^/]*?(?:0\.|1\.[0-3])"
def backboneOldRe : Re := RSeq [
  RStr "backbone", RDashOrMin, RStr ".js", RStarL RNoSlash,
  RAlt [RStr "0.", RSeq [RStr "1.", .cls false [('0', '3')]]]]

-- "ember_old": r"\bember(?:-|\.min)?\.js[^/]*?(?:0\.|1\.|2\.[0-1][0-7])"
def emberOldRe : Re := RSeq [
  .wb, RStr "ember", RDashOrMin, RStr ".js", RStarL RNoSlash,
  RAlt [RStr "0.", RStr "1.",
        RSeq [RStr "2.", .cls false [('0', '1')], .cls false [('0', '7')]]]]

-- "knockout_old": r"knockout(?:-|\.min)?\.js[^/]*?(?:0\.|1\.|2\.|3\.[0-4])"
def knockoutOldRe : Re := RSeq [
  RStr "knockout", RDashOrMin, RStr ".js", RStarL RNoSlash,
  RAlt [RStr "0.", RStr "1.", RStr "2.", RSeq [RStr "3.", .cls false [('0', '4')]]]]

-- "dojo_old": r"dojo(?:-|\.min)?\.js[^/]*?(?:0\.|1\.[0-1][0-3])"
def dojoOldRe : Re := RSeq [
  RStr "dojo", RDashOrMin, RStr ".js", RStarL RNoSlash,
  RAlt [RStr "0.",
        RSeq [RStr "1.", .cls false [('0', '1')], .cls false [('0', '3')]]]]

-- "prototype_old": r"prototype(?:-|\.min)?\.js[^/]*?(?:0\.|1\.[0-6]\.|1\.7\.[0-2])"
def prototypeOldRe : Re := RSeq [
  RStr "prototype", RDashOrMin, RStr ".js", RStarL RNoSlash,
  RAlt [RStr "0.", RSeq [RStr "1.", .cls false [('0', '6')], .lit '.'],
        RSeq [RStr "1.7.", .cls false [('0', '2')]]]]

-- "mootools_old": r"mootools(?:-|\.min)?\.js[^/]*?(?:0\.|1\.[0-5])"
def mootoolsOldRe : Re := RSeq [
  RStr "mootools", RDashOrMin, RStr ".js", RStarL RNoSlash,
  RAlt [RStr "0.", RSeq [RStr "1.", .cls false [('0', '5')]]]]

-- "yui_old": r"yui(?:-|\.min)?\.js[^/]*?(?:0\.|1\.|2\.|3\.[0-1][0-7])"
def yuiOldRe : Re := RSeq [
  RStr "yui", RDashOrMin, RStr ".js", RStarL RNoSlash,
  RAlt [RStr "0.", RStr "1.", RStr "2.",
        RSeq [RStr "3.", .cls false [('0', '1')], .cls false [('0', '7')]]]]

-- "extjs_old": r"ext(?:-|\.min)?\.js[^/]*?(?:0\.|1\.|2\.|3\.|4\.|5\.|6\.[0-1])"
def extjsOldRe : Re := RSeq [
  RStr "ext", RDashOrMin, RStr ".js", RStarL RNoSlash,
  RAlt [RStr "0.", RStr "1.", RStr "2.", RStr "3.", RStr "4.", RStr "5.",
        RSeq [RStr "6.", .cls false [('0', '1')]]]]

-- "underscore_old": r"underscore(?:-|\.min)?\.js[^/]*?(?:0\.|1\.[0-8])"
def underscoreOldRe : Re := RSeq [
  RStr "underscore", RDashOrMin, RStr ".js", RStarL RNoSlash,
  RAlt [RStr "0.", RSeq [RStr "1.", .cls false [('0', '8')]]]]

-- "lodash_old": r"lodash(?:-|\.min)?\.js[^/]*?(?:0\.|1\.|2\.|3\.|4\.[0-1][0-6])"
def lodashOldRe : Re := RSeq [
  RStr "lodash", RDashOrMin, RStr ".js", RStarL RNoSlash,
  RAlt [RStr "0.", RStr "1.", RStr "2.", RStr "3.",
        RSeq [RStr "4.", .cls false [('0', '1')], .cls false [('0', '6')]]]]

-- "jquery_ui_old": r"jquery-ui(?:-|\.min)?\.js[^/]*?(?:0\.|1\.[0-1][0-1])"
def jqueryUiOldRe : Re := RSeq [
  RStr "jquery-ui", RDashOrMin, RStr ".js", RStarL RNoSlash,
  RAlt [RStr "0.",
        RSeq [RStr "1.", .cls false [('0', '1')], .cls false [('0', '1')]]]]

-- "wordpress_old": r"wp-includes/.*?ver=(?:[0-4]\.|5\.[0-9]\.|6\.[0-1]\.)"
def wordpressOldRe : Re := RSeq [
  RStr "wp-includes/", RStarL .dot, RStr "ver=",
  RAlt [RSeq [.cls false [('0', '4')], .lit '.'],
        RSeq [RStr "5.", RDigit, .lit '.'],
        RSeq [RStr "6.", .cls false [('0', '1')], .lit '.']]]

-- "drupal_old": r"drupal\.js.*?v?(?:[0-7]\.)"
def drupalOldRe : Re := RSeq [
  RStr "drupal.js", RStarL .dot, ROpt (.lit 'v'), .cls false [('0', '7')], .lit '.']

-- "joomla_old": r"joomla.*?v?(?:[0-2]\.|3\.[0-8])"
def joomlaOldRe : Re := RSeq [
  RStr "joomla", RStarL .dot, ROpt (.lit 'v'),
  RAlt [RSeq [.cls false [('0', '2')], .lit '.'],
        RSeq [RStr "3.", .cls false [('0', '8')]]]]

-- "handlebars_old": r"handlebars(?:-|\.min)?\.js[^/]*?(?:0\.|1\.|2\.|3\.)"
def handlebarsOldRe : Re := RSeq [
  RStr "handlebars", RDashOrMin, RStr ".js", RStarL RNoSlash,
  RAlt [RStr "0.", RStr "1.", RStr "2.", RStr "3."]]

-- "mustache_old": r"mustache(?:-|\.min)?\.js[^/]*?(?:0\.|1\.|2\.)"
def mustacheOldRe : Re := RSeq [
  RStr "mustache", RDashOrMin, RStr ".js", RStarL RNoSlash,
  RAlt [RStr "0.", RStr "1.", RStr "2."]]

-- "marionette_old": r"marionette(?:-|\.min)?\.js[^/]*?(?:0\.|1\.|2\.|3\.)"
def marionetteOldRe : Re := RSeq [
  RStr "marionette", RDashOrMin, RStr ".js", RStarL RNoSlash,
  RAlt [RStr "0.", RStr "1.", RStr "2.", RStr "3."]]

-- "requirejs_old": r"require(?:-|\.min)?\.js[^/]*?(?:0\.|1\.|2\.[0-2])"
def requirejsOldRe : Re := RSeq [
  RStr "require", RDashOrMin, RStr ".js", RStarL RNoSlash,
  RAlt [RStr "0.", RStr "1.", RSeq [RStr "2.", .cls false [('0', '2')]]]]

-- "socketio_old": r"socket\.io(?:-|\.min)?\.js[^/]*?(?:0\.|1\.)"
def socketioOldRe : Re := RSeq [
  RStr "socket.io", RDashOrMin, RStr ".js", RStarL RNoSlash,
  RAlt [RStr "0.", RStr "1."]]

-- "modernizr_old": r"modernizr(?:-|\.min)?\.js[^/]*?(?:0\.|1\.|2\.)"
def modernizrOldRe : Re := RSeq [
  RStr "modernizr", RDashOrMin, RStr ".js", RStarL RNoSlash,
  RAlt [RStr "0.", RStr "1.", RStr "2."]]

/-- The `VULNERABLE_PATTERNS` dict (diagnose_website.py lines 20-106), in
its insertion order. -/
def VULNERABLE_PATTERNS : List (String × Re) := [
  ("nextjs_old", nextjsOldRe),
  ("angularjs_v1_5", angularjsV15Re),
  ("angularjs_v1_4", angularjsV14Re),
  ("angularjs_v1_3", angularjsV13Re),
  ("angularjs_v1_2", angularjsV12Re),
  ("angularjs_v1_1", angularjsV11Re),
  ("angularjs_v1_0", angularjsV10Re),
  ("angularjs_old", angularjsOldRe),
  ("jquery_old", jqueryOldRe),
  ("bootstrap_old", bootstrapOldRe),
  ("react_old", reactOldRe),
  ("vue_old", vueOldRe),
  ("backbone_old", backboneOldRe),
  ("ember_old", emberOldRe),
  ("knockout_old", knockoutOldRe),
  ("dojo_old", dojoOldRe),
  ("prototype_old", prototypeOldRe),
  ("mootools_old", mootoolsOldRe),
  ("yui_old", yuiOldRe),
  ("extjs_old", extjsOldRe),
  ("underscore_old", underscoreOldRe),
  ("lodash_old", lodashOldRe),
  ("jquery_ui_old", jqueryUiOldRe),
  ("wordpress_old", wordpressOldRe),
  ("drupal_old", drupalOldRe),
  ("joomla_old", joomlaOldRe),
  ("handlebars_old", handlebarsOldRe),
  ("mustache_old", mustacheOldRe),
  ("marionette_old", marionetteOldRe),
  ("requirejs_old", requirejsOldRe),
  ("socketio_old", socketioOldRe),
  ("modernizr_old", modernizrOldRe)]

/-! ### The technology-identification catalog `TECH_DETECTION_PATTERNS`

Lines 123-164 of the source.  The only pattern containing uppercase
letters is `__doPostBack`; since matching runs with `re.IGNORECASE` over
`html.lower()`, it is transcribed lowercased. -/

/-- The `TECH_DETECTION_PATTERNS` dict, in its insertion order; each
entry's comment quotes the raw pattern. -/
def TECH_DETECTION_PATTERNS : List (String × Re) := [
  -- "angularjs": r"angular(?:js|\.js|\.min\.js)"
  ("angularjs", RSeq [RStr "angular", RAlt [RStr "js", RStr ".js", RStr ".min.js"]]),
  -- "angular": r"@angular/|angular\.js|angularjs"
  ("angular", RAlt [RStr "@angular/", RStr "angular.js", RStr "angularjs"]),
  -- "react": r"react(?:\.js|\.min\.js|/)|react-dom"
  ("react", .alt (RSeq [RStr "react", RAlt [RStr ".js", RStr ".min.js", RStr "/"]])
                 (RStr "react-dom")),
  -- "vue": r"vue(?:\.js|\.min\.js|\.runtime)"
  ("vue", RSeq [RStr "vue", RAlt [RStr ".js", RStr ".min.js", RStr ".runtime"]]),
  -- "nextjs": r"_next/|next\.js|__next"
  ("nextjs", RAlt [RStr "_next/", RStr "next.js", RStr "__next"]),
  -- "nuxt": r"_nuxt/|nuxt\.js"
  ("nuxt", .alt (RStr "_nuxt/") (RStr "nuxt.js")),
  -- "svelte": r"svelte|svelte\.js"
  ("svelte", .alt (RStr "svelte") (RStr "svelte.js")),
  -- "jquery": r"jquery(?:\.min)?\.js"
  ("jquery", RSeq [RStr "jquery", ROpt (RStr ".min"), RStr ".js"]),
  -- "backbone": r"backbone(?:\.min)?\.js"
  ("backbone", RSeq [RStr "backbone", ROpt (RStr ".min"), RStr ".js"]),
  -- "ember": r"ember(?:\.js|\.min\.js)"
  ("ember", RSeq [RStr "ember", .alt (RStr ".js") (RStr ".min.js")]),
  -- "knockout": r"knockout(?:\.min)?\.js"
  ("knockout", RSeq [RStr "knockout", ROpt (RStr ".min"), RStr ".js"]),
  -- "dojo": r"dojo(?:\.js|\.min\.js)"
  ("dojo", RSeq [RStr "dojo", .alt (RStr ".js") (RStr ".min.js")]),
  -- "prototype": r"prototype(?:\.js|\.min\.js)"
  ("prototype", RSeq [RStr "prototype", .alt (RStr ".js") (RStr ".min.js")]),
  -- "mootools": r"mootools(?:\.js|\.min\.js)"
  ("mootools", RSeq [RStr "mootools", .alt (RStr ".js") (RStr ".min.js")]),
  -- "yui": r"yui(?:\.js|\.min\.js)"
  ("yui", RSeq [RStr "yui", .alt (RStr ".js") (RStr ".min.js")]),
  -- "extjs": r"ext(?:\.js|\.min\.js)"
  ("extjs", RSeq [RStr "ext", .alt (RStr ".js") (RStr ".min.js")]),
  -- "underscore": r"underscore(?:\.min)?\.js"
  ("underscore", RSeq [RStr "underscore", ROpt (RStr ".min"), RStr ".js"]),
  -- "lodash": r"lodash(?:\.min)?\.js"
  ("lodash", RSeq [RStr "lodash", ROpt (RStr ".min"), RStr ".js"]),
  -- "moment": r"moment(?:\.min)?\.js"
  ("moment", RSeq [RStr "moment", ROpt (RStr ".min"), RStr ".js"]),
  -- "jquery_ui": r"jquery-ui|jqueryui"
  ("jquery_ui", .alt (RStr "jquery-ui") (RStr "jqueryui")),
  -- "bootstrap": r"bootstrap(?:\.min)?\.(?:js|css)"
  ("bootstrap", RSeq [RStr "bootstrap", ROpt (RStr ".min"), .lit '.',
                      .alt (RStr "js") (RStr "css")]),
  -- "wordpress": r"wp-content|wp-includes|wp-admin|wordpress"
  ("wordpress", RAlt [RStr "wp-content", RStr "wp-includes", RStr "wp-admin",
                      RStr "wordpress"]),
  -- "drupal": r"drupal\.js|sites/default"
  ("drupal", .alt (RStr "drupal.js") (RStr "sites/default")),
  -- "joomla": r"joomla|components/com_"
  ("joomla", .alt (RStr "joomla") (RStr "components/com_")),
  -- "magento": r"magento|skin/frontend"
  ("magento", .alt (RStr "magento") (RStr "skin/frontend")),
  -- "shopify": r"cdn\.shopify|shopify"
  ("shopify", .alt (RStr "cdn.shopify") (RStr "shopify")),
  -- "woocommerce": r"woocommerce"
  ("woocommerce", RStr "woocommerce"),
  -- "aspnet": r"asp\.net|aspx|viewstate|__doPostBack"
  ("aspnet", RAlt [RStr "asp.net", RStr "aspx", RStr "viewstate",
                   RStr "__dopostback"]),
  -- "php": r"\.php\?|x-powered-by.*php"
  ("php", .alt (RStr ".php?")
               (RSeq [RStr "x-powered-by", .star true .dot, RStr "php"])),
  -- "rails": r"ruby.*on.*rails"
  ("rails", RSeq [RStr "ruby", .star true .dot, RStr "on",
                  .star true .dot, RStr "rails"]),
  -- "django": r"csrfmiddlewaretoken"
  ("django", RStr "csrfmiddlewaretoken"),
  -- "laravel": r"laravel|_token"
  ("laravel", .alt (RStr "laravel") (RStr "_token")),
  -- "express": r"express\.js"
  ("express", RStr "express.js"),
  -- "socketio": r"socket\.io"
  ("socketio", RStr "socket.io"),
  -- "handlebars": r"handlebars(?:\.min)?\.js"
  ("handlebars", RSeq [RStr "handlebars", ROpt (RStr ".min"), RStr ".js"]),
  -- "mustache": r"mustache(?:\.min)?\.js"
  ("mustache", RSeq [RStr "mustache", ROpt (RStr ".min"), RStr ".js"]),
  -- "marionette": r"marionette(?:\.min)?\.js"
  ("marionette", RSeq [RStr "marionette", ROpt (RStr ".min"), RStr ".js"]),
  -- "requirejs": r"require(?:\.min)?\.js"
  ("requirejs", RSeq [RStr "require", ROpt (RStr ".min"), RStr ".js"]),
  -- "fontawesome": r"font-awesome|fontawesome"
  ("fontawesome", .alt (RStr "font-awesome") (RStr "fontawesome")),
  -- "modernizr": r"modernizr(?:\.min)?\.js"
  ("modernizr", RSeq [RStr "modernizr", ROpt (RStr ".min"), RStr ".js"])]

/-! ### The two version-extraction regexes -/

/-- The shape `\d+\.\d+(?:\.\d+)?` of a version number, shared by both
version-extraction regexes. -/
def versionCoreRe : Re :=
  RSeq [RPlus RDigit, .lit '.', RPlus RDigit, ROpt (RSeq [.lit '.', RPlus RDigit])]

/-- The regex `(\d+\.\d+(?:\.\d+)?)` of diagnose_site (line 685); its
group 1 is the whole match. -/
def vulnVersionRe : Re := versionCoreRe

/-- The regex of detect_technologies_static (line 366): a one-character
class (the characters `v`, the `\s` whitespace characters, slash and
hyphen) followed by `(\d+\.\d+(?:\.\d+)?)`; its group 1 is the whole
match minus the first character.  Python's ASCII `\s` is
tab through carriage-return (0x09-0x0D) plus space. -/
def versionCtxRe : Re :=
  .cat (.cls false [('v', 'v'), ('\t', '\r'), (' ', ' '), ('/', '/'), ('-', '-')])
       versionCoreRe

/-! ### Static Matcher — `detect_technologies_static` (lines 346-382) -/

/-- A technology finding `{name, version, confidence}` (§3 of the spec;
`detected_techs.append({...})` in the source). -/
structure Tech where
  name : String
  version : Option String
  confidence : String
deriving Repr, DecidableEq

/-- Version extraction of `detect_technologies_static` for the match span
`(s, e)`: the context window is `html_lower[start_pos:end_pos]` with
`start_pos = match.start()` and `end_pos = min(len(html_lower),
match.end() + 30)` (lines 359-362); `re.search` then looks for
`versionCtxRe` in that window and group 1 (the match minus its leading
delimiter character) is returned (lines 366-370). -/
def staticVersionInWindow (htmlL : List Char) (s e : Nat) : Option String :=
  let context := pySlice htmlL s (min htmlL.length (e + 30))
  match reSearch versionCtxRe context with
  | some m => some (String.mk (pySlice context (m.1 + 1) m.2))
  | none => none

/-- Inner loop of `detect_technologies_static` over one pattern's
`re.finditer` matches: append a finding for every match, stopping after
the first one whose window yields a version (`if version: break`). -/
def scanTechAux (htmlL : List Char) (tech : String) : List (Nat × Nat) → List Tech
  | [] => []
  | m :: rest =>
    let version := staticVersionInWindow htmlL m.1 m.2
    Tech.mk tech version "low" ::
      (match version with
       | some _ => []
       | none => scanTechAux htmlL tech rest)

/-- Source function `detect_technologies_static(html_content)`: run every catalog pattern
over `html_content.lower()` and collect the findings in catalog order
(the Python loop appends into one list). -/
def detect_technologies_static (html_content : String) : List Tech :=
  let htmlL := html_content.data.map Char.toLower
  (TECH_DETECTION_PATTERNS.map
    (fun tp => scanTechAux htmlL tp.1 (finditer tp.2 htmlL))).flatten

/-- Version extraction as claim C4 words it: the version is searched for
only in the window running from the match END to 30 characters past the
match end (`html_lower[match.end() : match.end() + 30]`), same shape and
delimiter requirement. -/
def claimVersionInWindow (htmlL : List Char) (e : Nat) : Option String :=
  let context := pySlice htmlL e (min htmlL.length (e + 30))
  match reSearch versionCtxRe context with
  | some m => some (String.mk (pySlice context (m.1 + 1) m.2))
  | none => none

/-- Inner loop of the claim-C4 variant of the Static Matcher. -/
def scanTechAuxClaim (htmlL : List Char) (tech : String) : List (Nat × Nat) → List Tech
  | [] => []
  | m :: rest =>
    let version := claimVersionInWindow htmlL m.2
    Tech.mk tech version "low" ::
      (match version with
       | some _ => []
       | none => scanTechAuxClaim htmlL tech rest)

/-- The Static Matcher as claim C4 describes it (version window running
from match end to match end + 30); used to refute C4 by comparison with
`detect_technologies_static`. -/
def detectTechnologiesStaticClaim (html_content : String) : List Tech :=
  let htmlL := html_content.data.map Char.toLower
  (TECH_DETECTION_PATTERNS.map
    (fun tp => scanTechAuxClaim htmlL tp.1 (finditer tp.2 htmlL))).flatten

/-! ### Fusion — `merge_detected_techs` (lines 385-419)

The Python `merged` dict is embedded as an association list in insertion
order: updating an existing key rewrites it in place, a new key is
appended at the end — exactly the iteration-order semantics of a Python
dict. -/

/-- A merged entry `{name, version}` (confidence is dropped by the merge). -/
structure MergedTech where
  name : String
  version : Option String
deriving Repr, DecidableEq

/-- Python `merged[name]` lookup (`none` = key absent). -/
def dictGet (d : List (String × Option String)) (k : String) : Option (Option String) :=
  match d with
  | [] => none
  | kv :: rest => if kv.1 = k then some kv.2 else dictGet rest k

/-- Python `merged[name] = v`: overwrite in place, else append. -/
def dictSet (d : List (String × Option String)) (k : String) (v : Option String) :
    List (String × Option String) :=
  match d with
  | [] => [(k, v)]
  | kv :: rest => if kv.1 = k then (k, v) :: rest else kv :: dictSet rest k v

/-- Python truthiness of a version value: `None` and `""` are falsy. -/
def pyTruthy (v : Option String) : Bool :=
  match v with
  | none => false
  | some s => s ≠ ""

/-- The body of both loops of `merge_detected_techs`:
`if name not in merged: merged[name] = version
 elif version and not merged[name]: merged[name] = version`. -/
def mergeStep (merged : List (String × Option String)) (tech : Tech) :
    List (String × Option String) :=
  match dictGet merged tech.name with
  | none => dictSet merged tech.name tech.version
  | some existing =>
    if pyTruthy tech.version && !(pyTruthy existing) then
      dictSet merged tech.name tech.version
    else merged

/-- Source function `merge_detected_techs(browser_techs, static_techs)`: fold the browser
findings first, then the static findings, then convert the dict back to
a list of `{name, version}` records in insertion order. -/
def merge_detected_techs (browser_techs static_techs : List Tech) : List MergedTech :=
  let merged := static_techs.foldl mergeStep (browser_techs.foldl mergeStep [])
  merged.map (fun kv => MergedTech.mk kv.1 kv.2)

/-! ### Vulnerability Scanner — the scan loop of `diagnose_site`
(lines 665-725) -/

/-- A recorded vulnerability `{type, version, matched_text}`. -/
structure VulnFinding where
  type : String
  version : String
  matched_text : String
deriving Repr, DecidableEq

/-- Version extraction of the scan loop for a match span `(s, e)`:
`context = html_lower[max(0, match.start() - 50) : min(len, match.end() + 50)]`
and the first `vulnVersionRe` match in it, else `"unknown"`
(lines 680-686; natural subtraction is Python's `max(0, ·)`). -/
def vulnVersionAt (htmlL : List Char) (s e : Nat) : String :=
  let context := pySlice htmlL (s - 50) (min htmlL.length (e + 50))
  match reSearch vulnVersionRe context with
  | some m => String.mk (pySlice context m.1 m.2)
  | none => "unknown"

/-- The dedup key of a match (lines 688-708), or `none` when the
jQuery body-context guard `continue`s the match away: the guard takes
`matched_text = html[match.start():match.end()][:100].lower()` and
requires one of the four literal substrings in it (lines 694-698). -/
def vulnKeyAt (html : List Char) (tech version : String) (s e : Nat) : Option String :=
  if pyIn "angularjs" tech then
    some ("angularjs_" ++ version)
  else if pyIn "jquery" tech && !(pyIn "ui" tech) then
    let matchedText := String.mk (((pySlice html s e).take 100).map Char.toLower)
    if !(pyIn "jquery.js" matchedText || pyIn "jquery.min.js" matchedText ||
         pyIn "jquery/" matchedText || pyIn "/jquery" matchedText) then
      none
    else
      some ("jquery_" ++ version)
  else if pyIn "wordpress" tech || pyIn "drupal" tech || pyIn "joomla" tech then
    some tech
  else if pyIn "php" tech || pyIn "aspnet" tech || pyIn "rails" tech ||
          pyIn "django" tech then
    some (if version ≠ "unknown" then tech ++ "_" ++ version else tech)
  else
    some (if version ≠ "unknown" then tech ++ "_" ++ version else tech)

/-- The inner `for match in matches` loop for one signature: guard-failed
and already-seen keys `continue`; the first recorded finding `break`s,
returning it with its new dedup key.  `matched_text` of the recorded
finding is `html[match.start():match.end()][:100]` (line 717, raw
original-case text). -/
def scanVulnMatches (html htmlL : List Char) (tech : String) (found : List String) :
    List (Nat × Nat) → Option (VulnFinding × String)
  | [] => none
  | m :: rest =>
    let version := vulnVersionAt htmlL m.1 m.2
    match vulnKeyAt html tech version m.1 m.2 with
    | none => scanVulnMatches html htmlL tech found rest
    | some key =>
      if found.contains key then scanVulnMatches html htmlL tech found rest
      else some (VulnFinding.mk tech version
                  (String.mk ((pySlice html m.1 m.2).take 100)), key)

/-- The outer `for tech, pattern in pattern_order` loop, threading the
`found_vulns` set. -/
def scanVulnPatterns (html htmlL : List Char) :
    List (String × Re) → List String → List VulnFinding
  | [], _ => []
  | tp :: rest, found =>
    match scanVulnMatches html htmlL tp.1 found (finditer tp.2 htmlL) with
    | some vk => vk.1 :: scanVulnPatterns html htmlL rest (vk.2 :: found)
    | none => scanVulnPatterns html htmlL rest found

/-- Strict version of the Python sort key comparison
`lambda x: ('old' in x[0], x[0])`: `False < True` on the first component,
then code-point order on the key. -/
def scanKeyLt (a b : String) : Bool :=
  (!(pyIn "old" a) && pyIn "old" b) || ((pyIn "old" a == pyIn "old" b) && strLt a b)

/-- Stable insertion by a strict `lt` (equal elements keep their order). -/
def insLt (lt : α → α → Bool) (x : α) : List α → List α
  | [] => [x]
  | y :: ys => if lt x y then x :: y :: ys else y :: insLt lt x ys

/-- Stable insertion sort; agrees with Python `sorted` for a strict key
comparison (and the catalog keys are pairwise distinct anyway). -/
def sortLt (lt : α → α → Bool) : List α → List α
  | [] => []
  | x :: xs => insLt lt x (sortLt lt xs)

/-- Source line `pattern_order = sorted(VULNERABLE_PATTERNS.items(),
key=lambda x: ('old' in x[0], x[0]))` (lines 672-673). -/
def vulnPatternOrder : List (String × Re) :=
  sortLt (fun a b => scanKeyLt a.1 b.1) VULNERABLE_PATTERNS

/-- The whole vulnerability scan of `diagnose_site` applied to the raw
markup: lower the markup, scan the signatures in `pattern_order`, and
collect the deduplicated findings in scan order. -/
def scanVulnerabilities (html : String) : List VulnFinding :=
  let htmlL := html.data.map Char.toLower
  scanVulnPatterns html.data htmlL vulnPatternOrder []

/-! ### Classifier, load-time formatting and report assembly
(lines 524-529 and 727-777) -/

/-- Status determination (lines 727-733).  `fcp` carries Python
truthiness: `None` and `0` are falsy in `elif fcp and fcp > 3000`. -/
def determine_status (console_errors : List String) (vulns : List VulnFinding)
    (fcp : Option Nat) : String :=
  if !console_errors.isEmpty || !vulns.isEmpty then "at_risk"
  else if (match fcp with
           | some n => (n != 0) && decide (n > 3000)
           | none => false) then "at_risk"
  else "clean"

/-- Source function `format_load_time(fcp_ms)` (lines 524-529): `"N/A"` for `None`, else
CPython's `f"{fcp_ms/1000.0:.1f}s"`.  The float pipeline is modelled in
exact integer arithmetic as rounding `fcp_ms / 100` to the nearest
integer number of tenths of a second, ties to even — this agrees with
CPython for every value whose binary double makes the same tie decision
(in particular everywhere off the exact ties `fcp_ms ≡ 50 (mod 100)`,
which no claim touches). -/
def format_load_time (fcp_ms : Option Nat) : String :=
  match fcp_ms with
  | none => "N/A"
  | some ms =>
    let tenths :=
      if ms % 100 > 50 then ms / 100 + 1
      else if ms % 100 < 50 then ms / 100
      else if (ms / 100) % 2 = 0 then ms / 100 else ms / 100 + 1
    toString (tenths / 10) ++ "." ++ toString (tenths % 10) ++ "s"

/-- Which exit path one diagnosis run took: `ok` (no unhandled exception
in the main `try` body), `timeout` (the outer `except TimeoutError`,
line 741), or `error` (the generic `except Exception`, line 755). -/
inductive NavOutcome where
  | ok
  | timeout
  | error (msg : String)
deriving Repr, DecidableEq

/-- The browser-produced inputs of one run: the console errors captured
by the `page.on("console")` handler, the FCP sample (`None` when
unavailable), and the rendered markup `page.content()`. -/
structure BrowserRun where
  console_errors : List String
  fcp : Option Nat
  html : String
deriving Repr, DecidableEq

/-- The aggregate result record (§3); `domain` and `tech` — derived by
`extract_domain` and `format_tech_name`, which no claim touches — are
not modelled. -/
structure DiagnosisResult where
  url : String
  console_errors : List String
  first_contentful_paint_ms : Option Nat
  vulnerabilities : List VulnFinding
  status : String
  error : Option String
  console_error_count : Nat
  load_time : String
  vulnerability_detected : Bool
deriving Repr, DecidableEq

/-- The unconditional final block of `diagnose_site` (lines 770-775):
derive `console_error_count`, `load_time` and `vulnerability_detected`
from the fields accumulated by the run. -/
def assemble_result (url : String) (console_errors : List String) (fcp : Option Nat)
    (vulns : List VulnFinding) (status : String) (err : Option String) :
    DiagnosisResult :=
  { url := url
    console_errors := console_errors
    first_contentful_paint_ms := fcp
    vulnerabilities := vulns
    status := status
    error := err
    console_error_count := console_errors.length
    load_time := format_load_time fcp
    vulnerability_detected := decide (vulns.length > 0) }

/-- Source function `diagnose_site(url)` as a function of the browser-produced inputs and
the exit path taken.  On `ok` the markup is scanned and the status
classified; on `timeout`/`error` the vulnerability and FCP logic is
skipped (`result["vulnerabilities"]` stays `[]` and
`first_contentful_paint_ms` stays `None`), status and the `error` message
are set by the handler.  The final block always runs. -/
def diagnose_site (url : String) (run : BrowserRun) (outcome : NavOutcome) :
    DiagnosisResult :=
  match outcome with
  | .ok =>
    let vulns := scanVulnerabilities run.html
    assemble_result url run.console_errors run.fcp vulns
      (determine_status run.console_errors vulns run.fcp) none
  | .timeout =>
    assemble_result url run.console_errors none [] "timeout"
      (some "Page load timeout after 30 seconds")
  | .error msg =>
    assemble_result url run.console_errors none [] "error" (some msg)

/-! ### Helper lemmas about the dict embedding -/

theorem dictGet_mem {k : String} {v : Option String} :
    ∀ {d : List (String × Option String)}, dictGet d k = some v → (k, v) ∈ d := by
  intro d
  induction d with
  | nil => intro h; simp [dictGet] at h
  | cons kv rest ih =>
    intro h
    obtain ⟨k1, v1⟩ := kv
    simp only [dictGet] at h
    split at h
    · next hk =>
        injection h with h
        have hk1 : k1 = k := hk
        subst hk1
        subst h
        exact List.mem_cons_self _ _
    · next hk => exact List.mem_cons_of_mem _ (ih h)

theorem dictGet_dictSet_self (k : String) (v : Option String) :
    ∀ d, dictGet (dictSet d k v) k = some v := by
  intro d
  induction d with
  | nil => simp [dictSet, dictGet]
  | cons kv rest ih =>
    by_cases hk : kv.1 = k
    · simp [dictSet, hk, dictGet]
    · simp [dictSet, hk, dictGet, ih]

theorem dictGet_none_keys {k : String} :
    ∀ {d : List (String × Option String)}, dictGet d k = none →
      k ∉ d.map Prod.fst := by
  intro d
  induction d with
  | nil => intro _; simp
  | cons kv rest ih =>
    intro h
    simp only [dictGet] at h
    by_cases hk : kv.1 = k
    · rw [if_pos hk] at h; exact absurd h (by simp)
    · rw [if_neg hk] at h
      simp only [List.map_cons, List.mem_cons]
      rintro (rfl | hmem)
      · exact hk rfl
      · exact ih h hmem

theorem map_fst_dictSet_of_none {k : String} {v : Option String} :
    ∀ {d : List (String × Option String)}, dictGet d k = none →
      (dictSet d k v).map Prod.fst = d.map Prod.fst ++ [k] := by
  intro d
  induction d with
  | nil => intro _; simp [dictSet]
  | cons kv rest ih =>
    intro h
    simp only [dictGet] at h
    by_cases hk : kv.1 = k
    · rw [if_pos hk] at h; exact absurd h (by simp)
    · rw [if_neg hk] at h
      simp [dictSet, hk, ih h]

theorem map_fst_dictSet_of_some {k : String} {v v0 : Option String} :
    ∀ {d : List (String × Option String)}, dictGet d k = some v0 →
      (dictSet d k v).map Prod.fst = d.map Prod.fst := by
  intro d
  induction d with
  | nil => intro h; simp [dictGet] at h
  | cons kv rest ih =>
    intro h
    simp only [dictGet] at h
    by_cases hk : kv.1 = k
    · simp [dictSet, hk]
    · rw [if_neg hk] at h
      simp [dictSet, hk, ih h]

theorem mergeStep_keys_nodup (t : Tech) {d : List (String × Option String)}
    (h : (d.map Prod.fst).Nodup) : ((mergeStep d t).map Prod.fst).Nodup := by
  cases hg : dictGet d t.name with
  | none =>
    have hstep : mergeStep d t = dictSet d t.name t.version := by
      simp [mergeStep, hg]
    rw [hstep, map_fst_dictSet_of_none hg]
    have hout : t.name ∉ d.map Prod.fst := dictGet_none_keys hg
    simp [List.nodup_append, h, hout]
  | some v0 =>
    have hstep : mergeStep d t =
        if pyTruthy t.version && !(pyTruthy v0) then dictSet d t.name t.version
        else d := by
      simp [mergeStep, hg]
    rw [hstep]
    split
    · rw [map_fst_dictSet_of_some hg]; exact h
    · exact h

theorem foldl_mergeStep_nodup :
    ∀ (l : List Tech) (d : List (String × Option String)),
      (d.map Prod.fst).Nodup → ((l.foldl mergeStep d).map Prod.fst).Nodup := by
  intro l
  induction l with
  | nil => intro d h; simpa using h
  | cons t rest ih => intro d h; exact ih _ (mergeStep_keys_nodup t h)

/-! ### Helper lemmas about the stable insertion sort -/

theorem insLt_perm {α : Type} (lt : α → α → Bool) (x : α) :
    ∀ l, (insLt lt x l).Perm (x :: l) := by
  intro l
  induction l with
  | nil => simp [insLt]
  | cons y ys ih =>
    by_cases h : lt x y
    · simp [insLt, h]
    · simp only [insLt, h, Bool.false_eq_true, if_false]
      exact (ih.cons y).trans (List.Perm.swap x y ys)

theorem sortLt_perm {α : Type} (lt : α → α → Bool) :
    ∀ l, (sortLt lt l).Perm l := by
  intro l
  induction l with
  | nil => simp [sortLt]
  | cons x xs ih => exact (insLt_perm lt x (sortLt lt xs)).trans (ih.cons x)

/-! ### Structure lemmas about the scan loops -/

theorem scanVulnMatches_eq_some {html htmlL : List Char} {tech : String} :
    ∀ {found : List String} {ms : List (Nat × Nat)} {v : VulnFinding} {key : String},
      scanVulnMatches html htmlL tech found ms = some (v, key) →
      ∃ m ∈ ms, v = VulnFinding.mk tech (vulnVersionAt htmlL m.1 m.2)
                      (String.mk ((pySlice html m.1 m.2).take 100)) := by
  intro found ms
  induction ms with
  | nil => intro v key h; simp [scanVulnMatches] at h
  | cons m rest ih =>
    intro v key h
    simp only [scanVulnMatches] at h
    split at h
    · obtain ⟨m', hm', hv⟩ := ih h
      exact ⟨m', List.mem_cons_of_mem _ hm', hv⟩
    · split at h
      · obtain ⟨m', hm', hv⟩ := ih h
        exact ⟨m', List.mem_cons_of_mem _ hm', hv⟩
      · injection h with h
        exact ⟨m, List.mem_cons_self _ _, (congrArg Prod.fst h).symm⟩

theorem scanVulnPatterns_mem {html htmlL : List Char} :
    ∀ {ps : List (String × Re)} {found : List String} {v : VulnFinding},
      v ∈ scanVulnPatterns html htmlL ps found →
      ∃ tp ∈ ps, ∃ m ∈ finditer tp.2 htmlL,
        v = VulnFinding.mk tp.1 (vulnVersionAt htmlL m.1 m.2)
              (String.mk ((pySlice html m.1 m.2).take 100)) := by
  intro ps
  induction ps with
  | nil => intro found v h; simp [scanVulnPatterns] at h
  | cons tp rest ih =>
    intro found v h
    simp only [scanVulnPatterns] at h
    cases hE : scanVulnMatches html htmlL tp.1 found (finditer tp.2 htmlL) with
    | none =>
      rw [hE] at h
      obtain ⟨tp', htp', m, hm, hv⟩ := ih h
      exact ⟨tp', List.mem_cons_of_mem _ htp', m, hm, hv⟩
    | some vk =>
      rw [hE] at h
      rcases List.mem_cons.1 h with rfl | hmem
      · obtain ⟨m, hm, hv⟩ := scanVulnMatches_eq_some hE
        exact ⟨tp, List.mem_cons_self _ _, m, hm, hv⟩
      · obtain ⟨tp', htp', m, hm, hv⟩ := ih hmem
        exact ⟨tp', List.mem_cons_of_mem _ htp', m, hm, hv⟩

theorem scanTechAux_mem {htmlL : List Char} {tech : String} :
    ∀ {ms : List (Nat × Nat)} {t : Tech}, t ∈ scanTechAux htmlL tech ms →
      ∃ m ∈ ms, t = Tech.mk tech (staticVersionInWindow htmlL m.1 m.2) "low" := by
  intro ms
  induction ms with
  | nil => intro t h; simp [scanTechAux] at h
  | cons m rest ih =>
    intro t h
    simp only [scanTechAux] at h
    rcases List.mem_cons.1 h with rfl | hmem
    · exact ⟨m, List.mem_cons_self _ _, rfl⟩
    · split at hmem
      · exact absurd hmem (by simp)
      · obtain ⟨m', hm', ht⟩ := ih hmem
        exact ⟨m', List.mem_cons_of_mem _ hm', ht⟩

theorem detect_static_mem {html : String} {t : Tech}
    (h : t ∈ detect_technologies_static html) :
    ∃ tp ∈ TECH_DETECTION_PATTERNS,
      ∃ m ∈ finditer tp.2 (html.data.map Char.toLower),
        t = Tech.mk tp.1
              (staticVersionInWindow (html.data.map Char.toLower) m.1 m.2) "low" := by
  unfold detect_technologies_static at h
  rw [List.mem_flatten] at h
  obtain ⟨l, hl, ht⟩ := h
  rw [List.mem_map] at hl
  obtain ⟨tp, htp, rfl⟩ := hl
  obtain ⟨m, hm, rfl⟩ := scanTechAux_mem ht
  exact ⟨tp, htp, m, hm, rfl⟩

/-! ### The claims -/

/-- Claim C1.  The claim says markup containing the script reference
`jquery-1.8.3.min.js` yields exactly one jQuery finding with version
"1.8.3", the body-context guard accepting the match.  The code disagrees:
the `jquery_old` signature does match (exactly once, span (13, 24), text
"jquery-1.8."), but the guard inspects only
`html[match.start():match.end()][:100]` — the matched span itself, which
never contains any of the four required substrings — so the match is
discarded and the whole scan returns no finding at all. -/
theorem claim_C1_jquery_markup_scan :
    scanVulnerabilities "<script src=\"jquery-1.8.3.min.js\"></script>" = [] ∧
    finditer jqueryOldRe
        ("<script src=\"jquery-1.8.3.min.js\"></script>".data.map Char.toLower)
      = [(13, 24)] := by
  constructor
  · decide
  · decide

/-- Claim C2: `merge_detected_techs` iterates live findings first, then
static findings, into a name-keyed mapping, and a later finding
overwrites an existing entry's version only when the incoming version is
non-null and the existing one is null; merging live
`{name: "react", version: null, confidence: "high"}` with static
`{name: "react", version: "16.3.0", confidence: "low"}` yields
`{name: "react", version: "16.3.0"}`.  The general rule is stated for
version values that are not the empty string (the Python code tests
truthiness, and neither producer can emit `""`). -/
theorem claim_C2_merge_rule :
    (∀ (merged : List (String × Option String)) (t : Tech),
      t.version ≠ some "" →
      (∀ kv ∈ merged, kv.2 ≠ some "") →
      ∀ v0, dictGet merged t.name = some v0 →
        dictGet (mergeStep merged t) t.name = some v0 ∨
          (t.version ≠ none ∧ v0 = none ∧
           dictGet (mergeStep merged t) t.name = some t.version)) ∧
    merge_detected_techs [Tech.mk "react" none "high"]
        [Tech.mk "react" (some "16.3.0") "low"]
      = [MergedTech.mk "react" (some "16.3.0")] := by
  constructor
  · intro merged t hv hd v0 h0
    have hstep : mergeStep merged t =
        if pyTruthy t.version && !(pyTruthy v0) then dictSet merged t.name t.version
        else merged := by
      simp [mergeStep, h0]
    by_cases hc : (pyTruthy t.version && !(pyTruthy v0)) = true
    · right
      obtain ⟨ht, hv0⟩ := Bool.and_eq_true_iff.1 hc
      refine ⟨?_, ?_, ?_⟩
      · intro hnone
        rw [hnone] at ht
        simp [pyTruthy] at ht
      · cases v0 with
        | none => rfl
        | some s =>
          exfalso
          have hs : s = "" := by
            simpa [pyTruthy] using hv0
          subst hs
          exact hd _ (dictGet_mem h0) rfl
      · rw [hstep, if_pos hc]
        exact dictGet_dictSet_self _ _ _
    · left
      rw [hstep, if_neg hc]
      exact h0
  · decide

/-- Claim C2 witness: the general overwrite rule applied to the concrete
react merge step. -/
theorem claim_C2_merge_rule_witness :
    dictGet (mergeStep [("react", (none : Option String))]
        (Tech.mk "react" (some "16.3.0") "low")) "react" = some none ∨
      ((some "16.3.0" : Option String) ≠ none ∧ (none : Option String) = none ∧
       dictGet (mergeStep [("react", (none : Option String))]
           (Tech.mk "react" (some "16.3.0") "low")) "react" = some (some "16.3.0")) :=
  claim_C2_merge_rule.1 [("react", none)] (Tech.mk "react" (some "16.3.0") "low")
    (by decide) (by decide) none (by decide)

/-- Claim C3: markup with two script tags both referencing
`angular.min.js?v=1.5` yields exactly one AngularJS finding (dedup key
`angularjs_1.5`), not two — the `angularjs_v1_5` signature records the
first match and `break`s, and every further AngularJS match (of
`angularjs_v1_5` or of the broader `angularjs_old`) maps to the
already-recorded key and is skipped. -/
theorem claim_C3_angularjs_dedup :
    scanVulnerabilities
        ("<script src=\"angular.min.js?v=1.5\"></script>" ++
         "<script src=\"angular.min.js?v=1.5\"></script>")
      = [VulnFinding.mk "angularjs_v1_5" "1.5" "angular.min.js?v=1.5"] := by
  decide

/-- Claim C4.  The claim says the version is searched for only in the
window from the match END to 30 characters past it.  The code disagrees:
the window starts at the match START (`start_pos = match.start()`,
line 359).  On `"ruby 1.2 on rails"` the `rails` pattern matches the span
(0, 17) and the code extracts version "1.2" — which lies before the match
end, so the claim's window (empty here) would give no version. -/
theorem claim_C4_counterexample :
    detect_technologies_static "ruby 1.2 on rails"
      = [Tech.mk "rails" (some "1.2") "low"] ∧
    detectTechnologiesStaticClaim "ruby 1.2 on rails"
      = [Tech.mk "rails" none "low"] ∧
    Tech.mk "rails" (some "1.2") "low" ≠ Tech.mk "rails" none "low" := by
  refine ⟨by decide, by decide, by decide⟩

/-- Claim C4, amended: for every catalog pattern match the Static Matcher
searches for a version only within the window running from the match
START to 30 characters past the match end (accepting a delimited
`\d+.\d+(.\d+)?` substring, null version if none is there) — every
emitted finding's version is `staticVersionInWindow` of one of its
pattern's match spans. -/
theorem claim_C4_version_window (html : String) (t : Tech)
    (h : t ∈ detect_technologies_static html) :
    ∃ tp ∈ TECH_DETECTION_PATTERNS, tp.1 = t.name ∧
      ∃ m ∈ finditer tp.2 (html.data.map Char.toLower),
        t.version = staticVersionInWindow (html.data.map Char.toLower) m.1 m.2 := by
  obtain ⟨tp, htp, m, hm, rfl⟩ := detect_static_mem h
  exact ⟨tp, htp, rfl, m, hm, rfl⟩

/-- Claim C4 witness: the amended window rule applied to the `rails`
finding of `"ruby 1.2 on rails"`. -/
theorem claim_C4_version_window_witness :
    Tech.mk "rails" (some "1.2") "low" ∈ detect_technologies_static "ruby 1.2 on rails" ∧
    (∃ tp ∈ TECH_DETECTION_PATTERNS, tp.1 = "rails" ∧
      ∃ m ∈ finditer tp.2 ("ruby 1.2 on rails".data.map Char.toLower),
        (some "1.2" : Option String)
          = staticVersionInWindow ("ruby 1.2 on rails".data.map Char.toLower) m.1 m.2) :=
  ⟨by decide, claim_C4_version_window "ruby 1.2 on rails"
    (Tech.mk "rails" (some "1.2") "low") (by decide)⟩

/-- Claim C5.  The claim says `matched_text` is the first 100 raw
characters of the markup starting at the match site.  The code disagrees:
`matched_text = html[match.start():match.end()][:100]` (line 717) is the
matched SPAN truncated to 100 characters.  For the single
`angular.min.js?v=1.5` tag, the only match spans (13, 33) and the
recorded `matched_text` is the 20-character span, not the 31 characters
that follow position 13. -/
theorem claim_C5_counterexample :
    scanVulnerabilities "<script src=\"angular.min.js?v=1.5\"></script>"
      = [VulnFinding.mk "angularjs_v1_5" "1.5" "angular.min.js?v=1.5"] ∧
    finditer angularjsV15Re
        ("<script src=\"angular.min.js?v=1.5\"></script>".data.map Char.toLower)
      = [(13, 33)] ∧
    String.mk (pySlice "<script src=\"angular.min.js?v=1.5\"></script>".data 13 (13 + 100))
      = "angular.min.js?v=1.5\"></script>" ∧
    ("angular.min.js?v=1.5" : String) ≠ "angular.min.js?v=1.5\"></script>" := by
  refine ⟨by decide, by decide, by decide, by decide⟩

/-- Claim C5, amended: every recorded VulnerabilityFinding's
`matched_text` equals the raw original-case matched span
`html[match.start():match.end()]` truncated to its first 100 characters
(hence it is always at most 100 characters long). -/
theorem claim_C5_matched_text (html : String) (v : VulnFinding)
    (h : v ∈ scanVulnerabilities html) :
    v.matched_text.length ≤ 100 ∧
    ∃ tp ∈ vulnPatternOrder, ∃ m ∈ finditer tp.2 (html.data.map Char.toLower),
      v.matched_text = String.mk ((pySlice html.data m.1 m.2).take 100) := by
  unfold scanVulnerabilities at h
  obtain ⟨tp, htp, m, hm, rfl⟩ := scanVulnPatterns_mem h
  constructor
  · show (String.mk ((pySlice html.data m.1 m.2).take 100)).length ≤ 100
    simp [String.length, List.length_take]
  · exact ⟨tp, htp, m, hm, rfl⟩

/-- Claim C5 witness: the amended matched-text rule applied to the
AngularJS finding of the single-tag markup. -/
theorem claim_C5_matched_text_witness :
    VulnFinding.mk "angularjs_v1_5" "1.5" "angular.min.js?v=1.5"
        ∈ scanVulnerabilities "<script src=\"angular.min.js?v=1.5\"></script>" ∧
    (("angular.min.js?v=1.5" : String).length ≤ 100 ∧
     ∃ tp ∈ vulnPatternOrder,
       ∃ m ∈ finditer tp.2
           ("<script src=\"angular.min.js?v=1.5\"></script>".data.map Char.toLower),
         ("angular.min.js?v=1.5" : String)
           = String.mk ((pySlice "<script src=\"angular.min.js?v=1.5\"></script>".data
               m.1 m.2).take 100)) :=
  ⟨by decide,
   claim_C5_matched_text "<script src=\"angular.min.js?v=1.5\"></script>"
     (VulnFinding.mk "angularjs_v1_5" "1.5" "angular.min.js?v=1.5") (by decide)⟩

/-- Claim C6: with no console errors and no vulnerabilities, FCP = 3000ms
classifies as `clean` and FCP = 3001ms as `at_risk` (the threshold is
strictly greater than 3000), both for the `determine_status` rule itself
and through a whole `diagnose_site` run on empty markup. -/
theorem claim_C6_fcp_boundary :
    (diagnose_site "https://example.com" (BrowserRun.mk [] (some 3000) "")
        NavOutcome.ok).status = "clean" ∧
    (diagnose_site "https://example.com" (BrowserRun.mk [] (some 3001) "")
        NavOutcome.ok).status = "at_risk" ∧
    determine_status [] [] (some 3000) = "clean" ∧
    determine_status [] [] (some 3001) = "at_risk" := by
  refine ⟨by decide, by decide, by decide, by decide⟩

/-- Claim C7: the scan order `pattern_order` puts every signature whose
key contains "old" strictly after every key that does not, and within
each of the two groups keys ascend lexically; moreover it is a
permutation of the catalog (every signature is scanned). -/
theorem claim_C7_scan_order :
    (vulnPatternOrder.map Prod.fst).Pairwise (fun a b =>
      (pyIn "old" a = false ∧ pyIn "old" b = true) ∨
      (pyIn "old" a = pyIn "old" b ∧ strLt a b = true)) ∧
    (vulnPatternOrder.map Prod.fst).Perm (VULNERABLE_PATTERNS.map Prod.fst) := by
  constructor
  · decide
  · exact List.Perm.map Prod.fst (sortLt_perm _ _)

/-- Claim C8: in every DiagnosisResult returned by a diagnosis run — for
every URL, every browser input and every outcome, including timeout and
error — `vulnerability_detected` equals `len(vulnerabilities) > 0`. -/
theorem claim_C8_vulnerability_flag (url : String) (run : BrowserRun)
    (outcome : NavOutcome) :
    (diagnose_site url run outcome).vulnerability_detected
      = decide (0 < (diagnose_site url run outcome).vulnerabilities.length) := by
  cases outcome <;> rfl

/-- Claim C9: the assembler always sets `load_time` by formatting the
result's FCP field through `format_load_time`; `format_load_time` maps
null to "N/A" and a known integer millisecond value to the seconds value
with one decimal digit followed by "s" (shown for every exact multiple of
100 ms, where no float rounding is involved); in particular 1200ms gives
"1.2s". -/
theorem claim_C9_load_time :
    (∀ (url : String) (run : BrowserRun) (outcome : NavOutcome),
      (diagnose_site url run outcome).load_time
        = format_load_time (diagnose_site url run outcome).first_contentful_paint_ms) ∧
    format_load_time none = "N/A" ∧
    (∀ k : Nat, format_load_time (some (100 * k))
        = toString (k / 10) ++ "." ++ toString (k % 10) ++ "s") ∧
    format_load_time (some 1200) = "1.2s" := by
  refine ⟨?_, rfl, ?_, by decide⟩
  · intro url run o
    cases o <;> rfl
  · intro k
    have h1 : (100 * k) % 100 = 0 := by omega
    have h2 : (100 * k) / 100 = k := by omega
    simp [format_load_time, h1, h2]

/-- Claim C10: the list returned by `merge_detected_techs` never repeats
a technology name, for all input lists — even though
`detect_technologies_static` can emit several findings with the same name
(it does on `"jquery.js jquery.js"`). -/
theorem claim_C10_merged_names_nodup :
    (∀ (browser_techs static_techs : List Tech),
      ((merge_detected_techs browser_techs static_techs).map MergedTech.name).Nodup) ∧
    detect_technologies_static "jquery.js jquery.js"
      = [Tech.mk "jquery" none "low", Tech.mk "jquery" none "low"] := by
  constructor
  · intro bt st
    unfold merge_detected_techs
    have h0 : ((([] : List (String × Option String))).map Prod.fst).Nodup := by simp
    have h1 := foldl_mergeStep_nodup bt [] h0
    have h2 := foldl_mergeStep_nodup st _ h1
    simpa [List.map_map, Function.comp] using h2
  · decide

end OldTech

